import Mathlib

/-!
Shallow embedding of `src/client.py`, a Jupyter-notebook front-end for the
mu32 microphone-array acquisition system.

The file defines the widget state of the two view classes (`gui_server`,
`gui_play`), the controller class (`array`), and the callbacks the claims
are about.  External collaborators (the `megamicros` delegate client, the
SSH facility, the widget toolkit) are modelled by explicit parameters:

* a delegate call that may raise is passed as an `Except String Unit`
  outcome (the `String` is the Python exception's message, i.e. `str(e)`);
* the SSH probe's remote output is passed as the list of lines returned by
  `stdout.readlines()`;
* side effects outside the widget state (lines printed to the console,
  opening an SSH session, remote commands executed) are returned
  explicitly in result structures.

Python's `+` between a `str` and an exception object raises `TypeError`;
this is modelled by `PyVal`/`pyStrAdd` and is relevant to the handler in
`array.startrec_fct`, which evaluates `'Aborting: ' + e` (without `str`).
-/

/-- Widget state of the `gui_server` class: the `value` / `disabled`
fields of the widgets that the code reads or mutates, plus the visibility
of the hidden admin row (`ligne4`). -/
structure gui_server where
  ip_value : String
  ip_disabled : Bool
  port_value : String
  port_disabled : Bool
  array_nb_value : String
  array_nb_disabled : Bool
  fs_value : String
  blocksize_value : String
  button_connect_disabled : Bool
  status_value : String
  button_startacq_disabled : Bool
  button_stopacq_disabled : Bool
  button_startrec_disabled : Bool
  button_stoprec_disabled : Bool
  button_sos_disabled : Bool
  status_sos_value : String
  button_start_srv_disabled : Bool
  button_stop_srv_disabled : Bool
  passwd_value : String
  ligne4_visible : Bool
deriving DecidableEq, Repr

/-- Initial widget state built by `gui_server.__init__` (lines 26-164 of
`client.py`): default values of every widget as passed to the toolkit
constructors; `ligne4.layout.visibility = 'hidden'`. -/
def gui_server.init : gui_server where
  ip_value := "10.3.141.1"
  ip_disabled := false
  port_value := "9002"
  port_disabled := false
  array_nb_value := "F0"
  array_nb_disabled := false
  fs_value := ""
  blocksize_value := ""
  button_connect_disabled := false
  status_value := ""
  button_startacq_disabled := true
  button_stopacq_disabled := true
  button_startrec_disabled := true
  button_stoprec_disabled := true
  button_sos_disabled := false
  status_sos_value := "Waiting..."
  button_start_srv_disabled := false
  button_stop_srv_disabled := false
  passwd_value := ""
  ligne4_visible := false

/-- `gui_server.update_status(message)`: sets the status text. -/
def gui_server.update_status (s : gui_server) (message : String) : gui_server :=
  {s with status_value := message}

/-- `gui_server.ready_to_start(fs, blocksize)` (lines 174-188): records
`str(fs)` / `str(blocksize)`, locks the connection inputs (ip, port,
array selector, connect button), unlocks start-acq and start-rec, locks
both stop buttons. -/
def gui_server.ready_to_start (s : gui_server) (fs blocksize : Nat) : gui_server :=
  {s with fs_value := toString fs
          blocksize_value := toString blocksize
          ip_disabled := true
          port_disabled := true
          array_nb_disabled := true
          button_connect_disabled := true
          button_startacq_disabled := false
          button_stopacq_disabled := true
          button_startrec_disabled := false
          button_stoprec_disabled := true
          status_value := "Ready to start acquisition."}

/-- `gui_server.start_acq` (lines 196-203). -/
def gui_server.start_acq (s : gui_server) : gui_server :=
  {s with button_startacq_disabled := true
          button_stopacq_disabled := false
          button_startrec_disabled := true
          button_stoprec_disabled := true
          status_value := "Acquisition started."}

/-- `gui_server.stop_acq` (lines 205-214). -/
def gui_server.stop_acq (s : gui_server) : gui_server :=
  {s with button_startacq_disabled := false
          button_stopacq_disabled := true
          button_startrec_disabled := false
          button_stoprec_disabled := true
          status_value := "Acquisition stopped."}

/-- `gui_server.start_rec` (lines 216-223). -/
def gui_server.start_rec (s : gui_server) : gui_server :=
  {s with button_startacq_disabled := true
          button_stopacq_disabled := true
          button_startrec_disabled := true
          button_stoprec_disabled := false
          status_value := "Recording to file..."}

/-- `gui_server.stop_rec` (lines 225-232). -/
def gui_server.stop_rec (s : gui_server) : gui_server :=
  {s with button_startacq_disabled := false
          button_stopacq_disabled := true
          button_startrec_disabled := false
          button_stoprec_disabled := true
          status_value := "File saved."}

/-- `gui_server.sos(button)` (lines 234-266): clears fs/blocksize, locks
connect / start-acq / start-rec and both admin buttons, shows the admin
row, then runs the remote probe `systemctl is-active megamicros_server.service`
over SSH; `srv` is the list of lines the probe's stdout returned.  If the
output is exactly the single line `active` then the admin status reports
`Server = OK` with only the stop-server button enabled, otherwise
`Server = ERROR` with only the start-server button enabled. -/
def gui_server.sos (s : gui_server) (srv : List String) : gui_server :=
  let s1 := {s with fs_value := ""
                    blocksize_value := ""
                    button_connect_disabled := true
                    button_startacq_disabled := true
                    button_startrec_disabled := true
                    button_start_srv_disabled := true
                    button_stop_srv_disabled := true
                    status_value := "SOS mode. For admin only."
                    ligne4_visible := true}
  let s2 := if srv = ["active\n"] then
      {s1 with button_start_srv_disabled := true, button_stop_srv_disabled := false}
    else
      {s1 with button_start_srv_disabled := false, button_stop_srv_disabled := true}
  let srv_state := if srv = ["active\n"] then "OK" else "ERROR"
  {s2 with status_sos_value := "Server = " ++ srv_state}

/-- Widget state of the `gui_play` class (lines 268-369). -/
structure gui_play where
  fs_value : String
  blocksize_value : String
  blocksize_disabled : Bool
  button_startplay_disabled : Bool
  button_stopplay_disabled : Bool
  status_value : String
deriving DecidableEq, Repr

/-- Initial widget state built by `gui_play.__init__`. -/
def gui_play.init : gui_play where
  fs_value := ""
  blocksize_value := "2048"
  blocksize_disabled := false
  button_startplay_disabled := true
  button_stopplay_disabled := true
  status_value := ""

/-- `gui_play.update_data_info(fs, duration)` (lines 338-345): displays fs,
unlocks the blocksize field and the play button, locks the stop button. -/
def gui_play.update_data_info (s : gui_play) (fs duration : String) : gui_play :=
  {s with fs_value := fs
          blocksize_disabled := false
          button_startplay_disabled := false
          button_stopplay_disabled := true
          status_value := "File duration = " ++ duration ++ "s."}

/-- `gui_play.start_read` (lines 347-353). -/
def gui_play.start_read (s : gui_play) : gui_play :=
  {s with blocksize_disabled := true
          button_startplay_disabled := true
          button_stopplay_disabled := false
          status_value := "Reading file"}

/-- `gui_play.stop_read` (lines 355-361). -/
def gui_play.stop_read (s : gui_play) : gui_play :=
  {s with blocksize_disabled := false
          button_startplay_disabled := false
          button_stopplay_disabled := true
          status_value := "Reading stopped"}

/-- The delegate connection object `MemsArrayWS(ip, port=port)`: the
constructor arguments it was built from.  The delegate's behaviour is
external; only its identity as a freshly assigned attribute matters here. -/
structure MemsArrayWS where
  ip : String
  port : String
deriving DecidableEq, Repr

/-- State of the `array` controller class in server mode: the `gui_server`
view plus the controller's own attributes that the modelled callbacks read
or write (`mu32`, `mems_list`, `m`).  `none` means the Python attribute
has not been assigned yet. -/
structure array where
  gui : gui_server
  mu32 : Option MemsArrayWS
  mems_list : Option (List Nat)
  m : Option (List Int)
deriving DecidableEq, Repr

/-- Controller state right after `array.__init__('server')`: the view is
freshly constructed and no controller attribute is assigned. -/
def array.init : array where
  gui := gui_server.init
  mu32 := none
  mems_list := none
  m := none

/-- Python `range(a, b)` as a list: `[a, a+1, ..., b-1]`
(`range(n)` is `range(0, n)`). -/
def pyRange (a b : Nat) : List Nat :=
  (List.range (b - a)).map (a + ·)

/-- Result of `array.validateAcq_fct`: the new controller state, the lines
printed to the console, and whether the asynchronous settings-fetch task
(`validateAcq_fct_settings`) was created. -/
structure ValidateResult where
  state : array
  printed : List String
  settings_task_created : Bool
deriving DecidableEq, Repr

/-- `array.validateAcq_fct(button)` (lines 426-466): first assigns
`self.mu32 = MemsArrayWS(ip, port)` from the displayed values, then
dispatches on the array selector: `F0` maps to `range(8)`, `F1` to
`range(8,16)`, `F2` to `range(16,24)`, `F3` to `range(24,32)`; any other
value prints an error and returns without assigning `mems_list` and
without creating the settings task. -/
def array.validateAcq_fct (s : array) : ValidateResult :=
  let s1 : array := {s with mu32 := some ⟨s.gui.ip_value, s.gui.port_value⟩}
  if s.gui.array_nb_value = "F0" then
    ⟨{s1 with mems_list := some (pyRange 0 8)}, [], true⟩
  else if s.gui.array_nb_value = "F1" then
    ⟨{s1 with mems_list := some (pyRange 8 16)}, [], true⟩
  else if s.gui.array_nb_value = "F2" then
    ⟨{s1 with mems_list := some (pyRange 16 24)}, [], true⟩
  else if s.gui.array_nb_value = "F3" then
    ⟨{s1 with mems_list := some (pyRange 24 32)}, [], true⟩
  else
    ⟨s1, ["ERROR: bad array number selected."], false⟩

/-- `array.startacq_fct(button)` (lines 469-487): tries
`self.mu32.run(...)`; on success transitions the view with
`gui.start_acq()`, on failure sets the status to `'Aborting: ' + str(e)`.
`runResult` is the outcome of the delegate call, carrying `str(e)` on
failure. -/
def array.startacq_fct (s : array) (runResult : Except String Unit) : array :=
  match runResult with
  | Except.ok _ => {s with gui := s.gui.start_acq}
  | Except.error e => {s with gui := s.gui.update_status ("Aborting: " ++ e)}

/-- `array.stopacq_fct(button)` (lines 489-498): calls `self.mu32.halt()`
(no error handling) and transitions the view with `gui.stop_acq()`. -/
def array.stopacq_fct (s : array) : array :=
  {s with gui := s.gui.stop_acq}

/-- A Python value as far as the string-concatenation in the error
handlers is concerned: either a `str`, or an exception object carrying
its message. -/
inductive PyVal
  | str : String → PyVal
  | exc : String → PyVal
deriving DecidableEq, Repr

/-- Python `+` with a `str` left operand: concatenation when the right
operand is also a `str`; a `TypeError` when it is an exception object
(as in `'Aborting: ' + e`, where `e` was caught by `except Exception`). -/
def pyStrAdd : String → PyVal → Except String String
  | a, PyVal.str b => Except.ok (a ++ b)
  | _, PyVal.exc _ => Except.error "TypeError: can only concatenate str (not Exception) to str"

/-- `array.startrec_fct(button)` (lines 500-526): inside the `try` block
it first transitions the view with `gui.start_rec()`, then calls
`self.mu32.run(... h5_recording=True ...)` and `self.mu32.h5_start()`.
`runResult` is the combined outcome of those delegate calls.  The `except`
handler evaluates `self.gui.update_status('Aborting: ' + e)`: `e` is the
exception object itself (not `str(e)`), so the concatenation is modelled
by `pyStrAdd` applied to `PyVal.exc`.  The second component of the result
is the exception, if any, that escapes the callback uncaught. -/
def array.startrec_fct (s : array) (runResult : Except String Unit) : array × Option String :=
  let s1 : array := {s with gui := s.gui.start_rec}
  match runResult with
  | Except.ok _ => (s1, none)
  | Except.error e =>
    match pyStrAdd "Aborting: " (PyVal.exc e) with
    | Except.ok msg => ({s1 with gui := s1.gui.update_status msg}, none)
    | Except.error te => (s1, some te)

/-- `array.stoprec_fct(button)` (lines 528-538): calls
`self.mu32.h5_stop()` and `self.mu32.halt()` (no error handling) and
transitions the view with `gui.stop_rec()`. -/
def array.stoprec_fct (s : array) : array :=
  {s with gui := s.gui.stop_rec}

/-- `array.read(self)` (lines 540-555): tries
`self.m = self.mu32.signal_q.get(timeout=5).astype(np.float32) * self.mu32.sensibility`
and returns `self.m`; on `queue.Empty` it reports
`'ERROR: No data available'` through the view and returns `None`.
`q` is the queue read's outcome (`none` models the timeout raising
`queue.Empty`); `scale` is the delegate's numeric transform
(`astype(float32)` then multiplication by `sensibility`), kept abstract
since its operands live in the external delegate. -/
def array.read (s : array) (q : Option (List Int)) (scale : List Int → List Int) :
    array × Option (List Int) :=
  match q with
  | some buf =>
    let v := scale buf
    ({s with m := some v}, some v)
  | none => ({s with gui := s.gui.update_status "ERROR: No data available"}, none)

/-- Result of `array.sos_fct`: the new controller state, the lines printed
to the console, whether `client.connect(...)` opened an SSH session, and
the remote commands passed to `client.exec_command`. -/
structure SosResult where
  state : array
  printed : List String
  ssh_connected : Bool
  commands : List String
deriving DecidableEq, Repr

/-- `array.sos_fct(button)` (lines 604-633): with an empty password field
it prints an error and returns before any SSH activity.  Otherwise it
connects over SSH and dispatches on the description of the button that
triggered the call: the two recognized admin labels run the matching
`systemctl` command and flip the start/stop-server buttons; any other
label runs the fallback command `ls` and prints `Unkown button...`
(leaving every widget unchanged).  The session is then closed. -/
def array.sos_fct (s : array) (button_description : String) : SosResult :=
  if s.gui.passwd_value = "" then
    ⟨s, ["ERROR: please indicate the password to launch the command."], false, []⟩
  else if button_description = "ADMIN: Stop server" then
    ⟨{s with gui := {s.gui with button_start_srv_disabled := false,
                                button_stop_srv_disabled := true}},
     [], true, ["systemctl stop megamicros_server"]⟩
  else if button_description = "ADMIN: Start server" then
    ⟨{s with gui := {s.gui with button_start_srv_disabled := true,
                                button_stop_srv_disabled := false}},
     [], true, ["systemctl start megamicros_server"]⟩
  else
    ⟨s, ["Unkown button..."], true, ["ls"]⟩

/-- Events of the server front-end that mutate the `gui_server` widget
state: the view transitions (`ready_to_start`, `start_acq`, `stop_acq`,
`start_rec`, `stop_rec`, the SOS probe `sos`, `update_status`) and the two
widget mutations the controller's `sos_fct` performs directly on the admin
buttons after a recognized admin label.  Every controller callback acts on
the view only through these (`validateAcq_fct` touches no widget,
`startacq_fct` / `startrec_fct` / `read` go through `start_acq`,
`start_rec`, `update_status`). -/
inductive ev
  | ready_to_start (fs blocksize : Nat)
  | start_acq
  | stop_acq
  | start_rec
  | stop_rec
  | sos (srv : List String)
  | update_status (msg : String)
  | admin_start
  | admin_stop
deriving DecidableEq, Repr

/-- One event applied to the server view state. -/
def stepEv (s : gui_server) : ev → gui_server
  | ev.ready_to_start fs blocksize => s.ready_to_start fs blocksize
  | ev.start_acq => s.start_acq
  | ev.stop_acq => s.stop_acq
  | ev.start_rec => s.start_rec
  | ev.stop_rec => s.stop_rec
  | ev.sos srv => s.sos srv
  | ev.update_status msg => s.update_status msg
  | ev.admin_start =>
      {s with button_start_srv_disabled := true, button_stop_srv_disabled := false}
  | ev.admin_stop =>
      {s with button_start_srv_disabled := false, button_stop_srv_disabled := true}

/-- The view state reached from the freshly constructed view after a
sequence of events: every reachable state of the server front-end is
`runTrace es` for some trace `es`. -/
def runTrace (es : List ev) : gui_server :=
  es.foldl stepEv gui_server.init

/-- Did a `ready_to_start` transition occur in the trace (the controller
reached the ReadyToStart state)? -/
def pastReady (es : List ev) : Bool :=
  es.any fun e => match e with
    | ev.ready_to_start _ _ => true
    | _ => false

/-- Did the view's SOS probe run in the trace? -/
def sosSeen (es : List ev) : Bool :=
  es.any fun e => match e with
    | ev.sos _ => true
    | _ => false

lemma sos_ip_disabled (s : gui_server) (srv : List String) :
    (s.sos srv).ip_disabled = s.ip_disabled := by
  unfold gui_server.sos
  split <;> rfl

lemma sos_port_disabled (s : gui_server) (srv : List String) :
    (s.sos srv).port_disabled = s.port_disabled := by
  unfold gui_server.sos
  split <;> rfl

lemma sos_array_nb_disabled (s : gui_server) (srv : List String) :
    (s.sos srv).array_nb_disabled = s.array_nb_disabled := by
  unfold gui_server.sos
  split <;> rfl

lemma sos_button_connect_disabled (s : gui_server) (srv : List String) :
    (s.sos srv).button_connect_disabled = true := by
  unfold gui_server.sos
  split <;> rfl

/-- How a trace acts on the four connection-input `disabled` flags,
relative to an arbitrary starting state: `ready_to_start` is the only
event that locks the ip / port / array-selector inputs, while the connect
button is locked by `ready_to_start` and by the view's SOS probe, and no
event ever unlocks any of the four. -/
lemma foldl_conn_inputs (es : List ev) : ∀ s : gui_server,
    ((es.foldl stepEv s).ip_disabled = (s.ip_disabled || pastReady es))
    ∧ ((es.foldl stepEv s).port_disabled = (s.port_disabled || pastReady es))
    ∧ ((es.foldl stepEv s).array_nb_disabled = (s.array_nb_disabled || pastReady es))
    ∧ ((es.foldl stepEv s).button_connect_disabled
        = (s.button_connect_disabled || pastReady es || sosSeen es)) := by
  induction es with
  | nil =>
    intro s
    simp [pastReady, sosSeen]
  | cons e es ih =>
    intro s
    obtain ⟨h1, h2, h3, h4⟩ := ih (stepEv s e)
    cases e <;>
      simp_all [stepEv, pastReady, sosSeen, gui_server.ready_to_start,
        gui_server.start_acq, gui_server.stop_acq, gui_server.start_rec,
        gui_server.stop_rec, gui_server.update_status,
        sos_ip_disabled, sos_port_disabled, sos_array_nb_disabled,
        sos_button_connect_disabled, Bool.or_assoc, Bool.or_comm, Bool.or_left_comm]

/-- Controller state whose view shows array selector `F1` (all other
widgets at their constructor defaults). -/
def stateF1 : array :=
  {array.init with gui := {gui_server.init with array_nb_value := "F1"}}

/-- Controller state whose view shows the unrecognized selector value
`F4`. -/
def stateBad : array :=
  {array.init with gui := {gui_server.init with array_nb_value := "F4"}}

/-- Controller state with a non-empty password field. -/
def statePw : array :=
  {array.init with gui := {gui_server.init with passwd_value := "toto"}}

/-- C1 (counterexample): with the unrecognized selector value `F4`,
`validateAcq_fct` does print the error and assigns no microphone index
list, but it is not true that it produces "no other state change": the
delegate connection `self.mu32 = MemsArrayWS(ip, port)` is assigned
unconditionally before the selector check, so the resulting controller
state differs from the input state. -/
theorem validateAcq_fct_bad_selector_changes_state :
    (array.validateAcq_fct stateBad).printed = ["ERROR: bad array number selected."]
    ∧ (array.validateAcq_fct stateBad).state.mems_list = none
    ∧ stateBad.mu32 = none
    ∧ (array.validateAcq_fct stateBad).state.mu32 = some ⟨"10.3.141.1", "9002"⟩
    ∧ (array.validateAcq_fct stateBad).state ≠ stateBad := by
  refine ⟨rfl, rfl, rfl, rfl, ?_⟩
  decide

/-- C1 (amended): `validateAcq_fct` derives the microphone index list as
the contiguous ascending 8-element block starting at `selector_index * 8`
(`F0` to `[0..7]`, `F1` to `[8..15]`, `F2` to `[16..23]`, `F3` to
`[24..31]`); for any selector value outside that set it prints an error
and returns early, producing no microphone index list, launching no
settings fetch, and performing no state change other than the
unconditional assignment of the delegate connection `mu32` (from the
displayed ip/port) that precedes the selector check. -/
theorem validateAcq_fct_selector_mapping (s : array) :
    (s.gui.array_nb_value = "F0" →
      array.validateAcq_fct s =
        ⟨{s with mu32 := some ⟨s.gui.ip_value, s.gui.port_value⟩,
                 mems_list := some [0, 1, 2, 3, 4, 5, 6, 7]}, [], true⟩)
    ∧ (s.gui.array_nb_value = "F1" →
      array.validateAcq_fct s =
        ⟨{s with mu32 := some ⟨s.gui.ip_value, s.gui.port_value⟩,
                 mems_list := some [8, 9, 10, 11, 12, 13, 14, 15]}, [], true⟩)
    ∧ (s.gui.array_nb_value = "F2" →
      array.validateAcq_fct s =
        ⟨{s with mu32 := some ⟨s.gui.ip_value, s.gui.port_value⟩,
                 mems_list := some [16, 17, 18, 19, 20, 21, 22, 23]}, [], true⟩)
    ∧ (s.gui.array_nb_value = "F3" →
      array.validateAcq_fct s =
        ⟨{s with mu32 := some ⟨s.gui.ip_value, s.gui.port_value⟩,
                 mems_list := some [24, 25, 26, 27, 28, 29, 30, 31]}, [], true⟩)
    ∧ (s.gui.array_nb_value ≠ "F0" → s.gui.array_nb_value ≠ "F1" →
       s.gui.array_nb_value ≠ "F2" → s.gui.array_nb_value ≠ "F3" →
      array.validateAcq_fct s =
        ⟨{s with mu32 := some ⟨s.gui.ip_value, s.gui.port_value⟩},
         ["ERROR: bad array number selected."], false⟩) := by
  refine ⟨?_, ?_, ?_, ?_, ?_⟩ <;> intro h
  · simp [array.validateAcq_fct, h]
    rfl
  · simp [array.validateAcq_fct, h]
    rfl
  · simp [array.validateAcq_fct, h]
    rfl
  · simp [array.validateAcq_fct, h]
    rfl
  · intro h1 h2 h3
    simp [array.validateAcq_fct, h, h1, h2, h3]

/-- C1 (witness): the mapping theorem instantiated at selector `F1`
(indices `[8..15]`) and at the unrecognized selector `F4` (error line
printed). -/
theorem validateAcq_fct_selector_mapping_witness :
    (array.validateAcq_fct stateF1).state.mems_list = some [8, 9, 10, 11, 12, 13, 14, 15]
    ∧ (array.validateAcq_fct stateBad).printed = ["ERROR: bad array number selected."] := by
  constructor
  · rw [(validateAcq_fct_selector_mapping stateF1).2.1 rfl]
  · rw [(validateAcq_fct_selector_mapping stateBad).2.2.2.2
      (by decide) (by decide) (by decide) (by decide)]

/-- C2: the admin status probe in the server view maps the exact remote
output `['active\n']` to the status text `Server = OK` with the
start-server button disabled and the stop-server button enabled, and any
other output to `Server = ERROR` with the start-server button enabled and
the stop-server button disabled. -/
theorem sos_probe_branches (s : gui_server) (srv : List String) :
    ((s.sos srv).status_sos_value
        = "Server = " ++ (if srv = ["active\n"] then "OK" else "ERROR"))
    ∧ ((s.sos srv).button_start_srv_disabled = (if srv = ["active\n"] then true else false))
    ∧ ((s.sos srv).button_stop_srv_disabled = (if srv = ["active\n"] then false else true)) := by
  unfold gui_server.sos
  split
  · rename_i h
    simp [h]
  · rename_i h
    simp [h]

/-- C3: evaluation at the failing input.  When the delegate's run call
raises (here with message `connection refused`) during `startrec_fct`,
the view has already advanced to the Recording enablement state
(stop-recording enabled, start-acquisition disabled, status still
`Recording to file...`), and the `except` handler's expression
`'Aborting: ' + e` — a `str` plus an exception object — itself raises
`TypeError`, so the error is never reported through the view's status
text and the callback ends with an uncaught `TypeError`.  The sibling
handler in `startacq_fct` uses `str(e)`, showing the intended report. -/
theorem startrec_fct_handler_typeerror :
    ((array.startrec_fct array.init (Except.error "connection refused")).1.gui.status_value
        = "Recording to file...")
    ∧ ((array.startrec_fct array.init (Except.error "connection refused")).1.gui.button_stoprec_disabled
        = false)
    ∧ ((array.startrec_fct array.init (Except.error "connection refused")).1.gui.button_startacq_disabled
        = true)
    ∧ ((array.startrec_fct array.init (Except.error "connection refused")).2
        = some "TypeError: can only concatenate str (not Exception) to str") :=
  ⟨rfl, rfl, rfl, rfl⟩

/-- C4: when the delegate's run call raises in `startacq_fct`, the only
widget change is the status text, which is set to `'Aborting: ' + str(e)`
(a message containing the failure string); every `disabled` flag keeps its
prior value.  The Acquiring enablement transition (`gui.start_acq`)
happens exactly when the delegate call returns without error. -/
theorem startacq_fct_error_keeps_enablement (s : array) (e : String) :
    (array.startacq_fct s (Except.error e)
        = {s with gui := {s.gui with status_value := "Aborting: " ++ e}})
    ∧ (array.startacq_fct s (Except.ok ()) = {s with gui := s.gui.start_acq}) :=
  ⟨rfl, rfl⟩

/-- C5: when the delegate's queue read times out (raises `queue.Empty`,
modelled by `q = none`), `array.read` does not raise: it returns `none`,
keeps the last-known buffer attribute `m` unchanged, and the only widget
change is the status text `ERROR: No data available`. -/
theorem read_timeout_no_data (s : array) (scale : List Int → List Int) :
    (array.read s none scale
        = ({s with gui := {s.gui with status_value := "ERROR: No data available"}}, none))
    ∧ ((array.read s none scale).1.m = s.m) :=
  ⟨rfl, rfl⟩

/-- C6: from every prior widget state — in particular whatever state an
errored recording session left behind — `stoprec_fct` ends with the
start-acquisition and start-recording buttons enabled, both stop buttons
disabled, and the status `File saved.`. -/
theorem stoprec_fct_reenables (s : array) :
    ((array.stoprec_fct s).gui.button_startacq_disabled = false)
    ∧ ((array.stoprec_fct s).gui.button_startrec_disabled = false)
    ∧ ((array.stoprec_fct s).gui.button_stopacq_disabled = true)
    ∧ ((array.stoprec_fct s).gui.button_stoprec_disabled = true)
    ∧ ((array.stoprec_fct s).gui.status_value = "File saved.") :=
  ⟨rfl, rfl, rfl, rfl, rfl⟩

/-- C8: with an empty password field, `sos_fct` prints an error line and
returns early: it opens no SSH session, executes no remote command, and
leaves the whole controller and widget state unchanged. -/
theorem sos_fct_empty_password (s : array) (button_description : String)
    (h : s.gui.passwd_value = "") :
    array.sos_fct s button_description
      = ⟨s, ["ERROR: please indicate the password to launch the command."], false, []⟩ := by
  simp [array.sos_fct, h]

/-- C8 (witness): the freshly constructed controller state has an empty
password field, and `sos_fct` on it is the early return. -/
theorem sos_fct_empty_password_witness :
    array.sos_fct array.init "SOS"
      = ⟨array.init, ["ERROR: please indicate the password to launch the command."], false, []⟩ :=
  sos_fct_empty_password array.init "SOS" rfl

/-- C9: in the playback view, `update_data_info` enables the play button
and disables the stop button (displaying fs and the duration text),
`start_read` disables play and enables stop, and `stop_read` enables play
and disables stop — after each of the three transitions exactly one of
the two buttons is enabled. -/
theorem gui_play_toggle (s : gui_play) (fs duration : String) :
    ((s.update_data_info fs duration).button_startplay_disabled = false)
    ∧ ((s.update_data_info fs duration).button_stopplay_disabled = true)
    ∧ ((s.update_data_info fs duration).fs_value = fs)
    ∧ ((s.update_data_info fs duration).status_value = "File duration = " ++ duration ++ "s.")
    ∧ (s.start_read.button_startplay_disabled = true)
    ∧ (s.start_read.button_stopplay_disabled = false)
    ∧ (s.start_read.status_value = "Reading file")
    ∧ (s.stop_read.button_startplay_disabled = false)
    ∧ (s.stop_read.button_stopplay_disabled = true)
    ∧ (s.stop_read.status_value = "Reading stopped") :=
  ⟨rfl, rfl, rfl, rfl, rfl, rfl, rfl, rfl, rfl, rfl⟩

/-- C10: with a non-empty password and a triggering button whose
description is neither `ADMIN: Stop server` nor `ADMIN: Start server`,
`sos_fct` still opens the SSH session, executes the fallback remote
command `ls`, and prints `Unkown button...`; the controller and widget
state — in particular the start/stop-server buttons' enablement — is
unchanged. -/
theorem sos_fct_unknown_button (s : array) (button_description : String)
    (hp : s.gui.passwd_value ≠ "")
    (h1 : button_description ≠ "ADMIN: Stop server")
    (h2 : button_description ≠ "ADMIN: Start server") :
    array.sos_fct s button_description = ⟨s, ["Unkown button..."], true, ["ls"]⟩ := by
  simp [array.sos_fct, hp, h1, h2]

/-- C10 (witness): the fallback branch exercised with password `toto` and
button description `SOS`. -/
theorem sos_fct_unknown_button_witness :
    array.sos_fct statePw "SOS" = ⟨statePw, ["Unkown button..."], true, ["ls"]⟩ :=
  sos_fct_unknown_button statePw "SOS" (by decide) (by decide) (by decide)

/-- C7 (counterexample): the SOS probe is reachable from the initial
state (its button is enabled from construction) and disables the connect
button, yet the controller never reached ReadyToStart — so the claimed
equivalence between connection-input disabling and being at or past
ReadyToStart fails, as does the claim that no operation disables a
connection input before ReadyToStart. -/
theorem conn_inputs_iff_fails :
    ((runTrace [ev.sos []]).button_connect_disabled = true)
    ∧ (pastReady [ev.sos []] = false) := by
  constructor
  · decide
  · decide

/-- C7 (amended): in every reachable state of the server front-end, the
ip, port and array-selector inputs are disabled exactly when the
controller is at or past ReadyToStart (`ready_to_start` ran after the
settings fetch), while the connect button is disabled exactly when the
controller is at or past ReadyToStart or the view's SOS probe has run —
the SOS probe, reachable before ReadyToStart, additionally disables the
connect button. -/
theorem conn_inputs_disabled_characterization (es : List ev) :
    ((runTrace es).ip_disabled = pastReady es)
    ∧ ((runTrace es).port_disabled = pastReady es)
    ∧ ((runTrace es).array_nb_disabled = pastReady es)
    ∧ ((runTrace es).button_connect_disabled = (pastReady es || sosSeen es)) := by
  have h := foldl_conn_inputs es gui_server.init
  simpa [runTrace, gui_server.init] using h
